import Mathlib

/-!
Verification of the Claim-Sense claim-processing core: a shallow embedding of
the claim state machine (`app/state_machine/machine.py`), the claim model
(`app/core/models.py`), the multi-agent orchestrator
(`app/agents/orchestrator.py`) and the evaluation fan-out
(`app/agents/evaluator.py`), together with theorems about the workflow
properties stated in the specification.

Python floats are modelled as rationals, timestamps as caller-supplied
natural numbers, and `ValueError` raise sites as an explicit error type.
The values of the `TRANSITIONS` dict are Python `set`s, whose iteration
order depends on the per-process string-hash seed; operations that convert
them to lists are therefore parameterised by an iteration order `enum`
constrained only by `IsTransitionsOrder`.
-/

namespace ClaimSense

/-- The five claim states (`app/core/states.py`, `ClaimState`). -/
inductive ClaimState where
  | SUBMITTED
  | UNDER_REVIEW
  | FRAUD_INVESTIGATION
  | ASSESSMENT
  | FINAL_DECISION
  deriving DecidableEq, Fintype, Repr

/-- Projection of the pydantic `Claim` model (`app/core/models.py`) onto the
fields read or written by the state machine, the evaluators and the
orchestrator. -/
structure Claim where
  amount : ℚ
  requires_investigation : Bool
  current_state : ClaimState
  state_history : List ClaimState
  pending_states : List ClaimState
  updated_at : Option ℕ
  deriving DecidableEq, Repr

/-- `Claim.record_state_change` (`app/core/models.py` lines 101-106): push the
pre-transition `current_state` onto `state_history` when it does not already
occur anywhere in the history, overwrite `current_state`, refresh the
modification timestamp. -/
def record_state_change (c : Claim) (new_state : ClaimState) (now : ℕ) : Claim :=
  let hist := if c.current_state ∈ c.state_history then c.state_history
              else c.state_history ++ [c.current_state]
  { c with state_history := hist, current_state := new_state, updated_at := some now }

/-- Keys of the `ClaimStateMachine.TRANSITIONS` dict (`machine.py` lines
29-35), in insertion order (Python dicts preserve it). -/
def TRANSITIONS_KEYS : List ClaimState :=
  [.SUBMITTED, .UNDER_REVIEW, .FRAUD_INVESTIGATION, .ASSESSMENT, .FINAL_DECISION]

/-- Values of `ClaimStateMachine.TRANSITIONS` (`machine.py` lines 29-35),
listed in the order the set literals are written in the source.  The Python
values are unordered `set`s; any order satisfying `IsTransitionsOrder` below
is a possible iteration order. -/
def TRANSITIONS : ClaimState → List ClaimState
  | .SUBMITTED => [.UNDER_REVIEW]
  | .UNDER_REVIEW => [.ASSESSMENT, .FRAUD_INVESTIGATION]
  | .FRAUD_INVESTIGATION => [.ASSESSMENT]
  | .ASSESSMENT => [.FINAL_DECISION]
  | .FINAL_DECISION => []

/-- `enum` is a possible iteration order of the `TRANSITIONS` sets: for every
state it lists each member of that state's set exactly once.  CPython hashes
the (string-valued) enum members with a per-process random seed, so a run of
the program may observe any such order. -/
def IsTransitionsOrder (enum : ClaimState → List ClaimState) : Prop :=
  ∀ s : ClaimState, (enum s).Nodup ∧ ∀ t : ClaimState, (t ∈ enum s ↔ t ∈ TRANSITIONS s)

/-- The `ValueError`s raised by `ClaimStateMachine`, one constructor per
raise site, named after the specification's error taxonomy. -/
inductive MachineError where
  | unknownState
  | unsupportedInsertion
  | invalidTransition
  | terminalState
  deriving DecidableEq, Repr

/-- `ClaimStateMachine.get_valid_transitions` (`machine.py` lines 41-52):
the singleton head of `pending_states` when pending states exist, otherwise
`list(TRANSITIONS[current_state])` under iteration order `enum`. -/
def get_valid_transitions (enum : ClaimState → List ClaimState) (c : Claim) :
    List ClaimState :=
  match c.pending_states with
  | p :: _ => [p]
  | [] => enum c.current_state

/-- `ClaimStateMachine.can_transition` (`machine.py` lines 54-57). -/
def can_transition (enum : ClaimState → List ClaimState) (c : Claim)
    (target_state : ClaimState) : Bool :=
  decide (target_state ∈ get_valid_transitions enum c)

/-- `ClaimStateMachine.transition` (`machine.py` lines 59-87) in
state-passing style: the second component is the state of the (mutable)
claim object when the call returns or raises.  The `ValueError` for an
invalid transition is raised before any field of the claim is touched. -/
def transitionSt (enum : ClaimState → List ClaimState) (c : Claim)
    (target_state : ClaimState) (now : ℕ) : Except MachineError Unit × Claim :=
  if can_transition enum c target_state then
    let c1 := if c.pending_states.head? = some target_state then
                { c with pending_states := c.pending_states.tail }
              else c
    (Except.ok (), record_state_change c1 target_state now)
  else (Except.error MachineError.invalidTransition, c)

/-- `ClaimStateMachine.transition` as a fallible function returning the
updated claim. -/
def transition (enum : ClaimState → List ClaimState) (c : Claim)
    (target_state : ClaimState) (now : ℕ) : Except MachineError Claim :=
  match transitionSt enum c target_state now with
  | (Except.ok _, c') => Except.ok c'
  | (Except.error e, _) => Except.error e

/-- `ClaimStateMachine.insert_state` (`machine.py` lines 89-122). -/
def insert_state (c : Claim) (new_state before_state : ClaimState) :
    Except MachineError Claim :=
  if new_state ∉ TRANSITIONS_KEYS then Except.error MachineError.unknownState
  else if before_state ∉ TRANSITIONS new_state then
    Except.error MachineError.unsupportedInsertion
  else if new_state ∈ c.pending_states then Except.ok c
  else Except.ok { c with pending_states := new_state :: c.pending_states }

/-- `ClaimStateMachine.get_next_state` (`machine.py` lines 124-140). -/
def get_next_state (enum : ClaimState → List ClaimState) (c : Claim) :
    Option ClaimState :=
  let valid_transitions := get_valid_transitions enum c
  if valid_transitions.isEmpty then none
  else
    match c.pending_states with
    | p :: _ => some p
    | [] => valid_transitions.head?

/-- `ClaimStateMachine.advance` (`machine.py` lines 142-159). -/
def advance (enum : ClaimState → List ClaimState) (c : Claim) (now : ℕ) :
    Except MachineError Claim :=
  match get_next_state enum c with
  | none => Except.error MachineError.terminalState
  | some s => transition enum c s now

/-- `VisionAnalysisResult` (`app/agents/vision_agent.py` lines 19-25). -/
structure VisionAnalysisResult where
  detected_damage : String
  mismatch_found : Bool
  reasoning : String
  confidence : ℚ
  deriving DecidableEq, Repr

/-- `TextAnalysisResult` (`app/agents/text_agent.py` lines 17-23); pydantic
validates `0 ≤ inconsistency_score ≤ 10` at construction. -/
structure TextAnalysisResult where
  inconsistency_score : ℤ
  contradictions : List String
  verdict : String
  reasoning : String
  deriving DecidableEq, Repr

/-- `OrchestratorResult` (`app/agents/orchestrator.py` lines 21-28), without
the purely presentational `summary` string. -/
structure OrchestratorResult where
  requires_investigation : Bool
  fraud_score : ℚ
  vision_flagged : Bool
  text_flagged : Bool
  reasons : List String
  deriving DecidableEq, Repr

/-- `MultiAgentOrchestrator.TEXT_INCONSISTENCY_THRESHOLD` (`orchestrator.py`
line 42). -/
def TEXT_INCONSISTENCY_THRESHOLD : ℤ := 5

/-- `MultiAgentOrchestrator.evaluate_results` (`orchestrator.py` lines
48-119).  The vision block runs before the text block, so the `fraud_scores`
and `reasons` lists are the vision contributions followed by the text
contributions; `max(fraud_scores) if fraud_scores else 0.0` becomes
`max?` with default `0`. -/
def evaluate_results (vision_result : Option VisionAnalysisResult)
    (text_result : Option TextAnalysisResult) : OrchestratorResult :=
  let vision_flagged : Bool :=
    match vision_result with
    | some v => v.mismatch_found
    | none => false
  let vision_reasons : List String :=
    match vision_result with
    | some v => if v.mismatch_found then ["Vision Agent: " ++ v.reasoning] else []
    | none => []
  let vision_scores : List ℚ :=
    match vision_result with
    | some v =>
        if v.mismatch_found then [if v.confidence > 7/10 then 8/10 else 5/10]
        else [1/10]
    | none => []
  let text_flagged : Bool :=
    match text_result with
    | some t => decide (t.inconsistency_score ≥ TEXT_INCONSISTENCY_THRESHOLD)
    | none => false
  let text_reasons : List String :=
    match text_result with
    | some t =>
        if t.inconsistency_score ≥ TEXT_INCONSISTENCY_THRESHOLD then
          ("Text Agent: " ++ t.verdict ++ " (score: " ++
              toString t.inconsistency_score ++ "/10)") ::
            (t.contradictions.take 3).map (fun ctr => "  - " ++ ctr)
        else []
    | none => []
  let text_scores : List ℚ :=
    match text_result with
    | some t =>
        [if t.inconsistency_score ≥ TEXT_INCONSISTENCY_THRESHOLD then
            (t.inconsistency_score : ℚ) / 10
          else (t.inconsistency_score : ℚ) / 20]
    | none => []
  let fraud_scores : List ℚ := vision_scores ++ text_scores
  let fraud_score : ℚ := (fraud_scores.max?).getD 0
  { requires_investigation := vision_flagged || text_flagged
    fraud_score := fraud_score
    vision_flagged := vision_flagged
    text_flagged := text_flagged
    reasons := vision_reasons ++ text_reasons }

/-- `update_claim_for_investigation` (`orchestrator.py` lines 135-152). -/
def update_claim_for_investigation (c : Claim)
    (orchestrator_result : OrchestratorResult) : Claim :=
  if orchestrator_result.requires_investigation then
    let c1 := { c with requires_investigation := true }
    if ClaimState.FRAUD_INVESTIGATION ∈ c1.pending_states then c1
    else { c1 with pending_states := ClaimState.FRAUD_INVESTIGATION :: c1.pending_states }
  else c

/-- `AgentResult` (`app/agents/evaluator.py` lines 16-23). -/
structure AgentResult where
  agent_name : String
  requires_investigation : Bool
  confidence : ℚ
  reason : String
  deriving DecidableEq, Repr

/-- `_agent_alpha_evaluate` (`evaluator.py` lines 25-44); the `asyncio.sleep`
is a pure delay with no effect on the result. -/
def agent_alpha_evaluate (c : Claim) : AgentResult :=
  let suspicious : Bool := decide (c.amount > 50000) || c.requires_investigation
  { agent_name := "Agent Alpha"
    requires_investigation := suspicious
    confidence := if suspicious then 85/100 else 75/100
    reason :=
      if c.amount > 50000 then "High claim amount detected"
      else if c.requires_investigation then "Investigation flag set"
      else "No anomalies detected" }

/-- `_agent_beta_evaluate` (`evaluator.py` lines 47-65). -/
def agent_beta_evaluate (c : Claim) : AgentResult :=
  let suspicious : Bool := c.requires_investigation
  { agent_name := "Agent Beta"
    requires_investigation := suspicious
    confidence := if suspicious then 90/100 else 80/100
    reason :=
      if suspicious then "Cross-validation flagged for review"
      else "Cross-validation passed" }

/-- `agent_evaluation` (`evaluator.py` lines 68-105): `asyncio.gather` joins
on both evaluators and returns their results in argument order; the combined
verdict is `any(r.requires_investigation for r in results)`. -/
def agent_evaluation (c : Claim) : Bool × List AgentResult :=
  let results := [agent_alpha_evaluate c, agent_beta_evaluate c]
  (results.any (fun r => r.requires_investigation), results)

/-- Specification-side vision score contribution (spec §4.4): 0.8 if flagged
with confidence above 0.7, 0.5 if flagged otherwise, 0.1 if not flagged. -/
def visionContributionSpec (v : VisionAnalysisResult) : ℚ :=
  if v.mismatch_found then (if v.confidence > 7/10 then 8/10 else 5/10) else 1/10

/-- Specification-side text score contribution (spec §4.4): score/10 if
flagged (score at least 5), score/20 otherwise. -/
def textContributionSpec (t : TextAnalysisResult) : ℚ :=
  if t.inconsistency_score ≥ 5 then (t.inconsistency_score : ℚ) / 10
  else (t.inconsistency_score : ℚ) / 20

/-- A claim sitting at `UNDER_REVIEW` with empty `pending_states` (Scenario
B after one step: amount 1000, no evaluator flags). -/
def claimUnderReview : Claim :=
  { amount := 1000
    requires_investigation := false
    current_state := ClaimState.UNDER_REVIEW
    state_history := [ClaimState.SUBMITTED]
    pending_states := []
    updated_at := none }

/-- The iteration order of the `TRANSITIONS` sets that differs from the
source-literal order only on `UNDER_REVIEW`'s two-element set.  Both orders
are realised by CPython depending on the process hash seed. -/
def flippedOrder : ClaimState → List ClaimState
  | ClaimState.UNDER_REVIEW => [ClaimState.FRAUD_INVESTIGATION, ClaimState.ASSESSMENT]
  | s => TRANSITIONS s

/-- A claim whose `current_state` occurs in `state_history` but is not the
last recorded entry. -/
def claimRevisited : Claim :=
  { amount := 1000
    requires_investigation := false
    current_state := ClaimState.SUBMITTED
    state_history := [ClaimState.SUBMITTED, ClaimState.UNDER_REVIEW]
    pending_states := []
    updated_at := none }

/-- Scenario C vision input: mismatch found with confidence 0.8. -/
def scenarioCVision : VisionAnalysisResult :=
  { detected_damage := "rear bumper damage"
    mismatch_found := true
    reasoning := "photo shows rear damage, description says front"
    confidence := 8/10 }

/-- Scenario C text input: inconsistency score 2, below the threshold. -/
def scenarioCText : TextAnalysisResult :=
  { inconsistency_score := 2
    contradictions := []
    verdict := "CONSISTENT"
    reasoning := "accounts agree" }

/-- Scenario A claim: amount 60000, above Agent Alpha's threshold. -/
def scenarioAClaim : Claim :=
  { amount := 60000
    requires_investigation := false
    current_state := ClaimState.SUBMITTED
    state_history := []
    pending_states := []
    updated_at := none }

/-- An aggregated decision that demands investigation. -/
def investigateResult : OrchestratorResult :=
  { requires_investigation := true
    fraud_score := 8/10
    vision_flagged := true
    text_flagged := false
    reasons := ["Vision Agent: photo shows rear damage, description says front"] }

/-- Every claim state is a key of the `TRANSITIONS` dict. -/
theorem mem_transitions_keys (s : ClaimState) : s ∈ TRANSITIONS_KEYS := by
  cases s <;> decide

/-- Successful-path shape of `transitionSt`: when the target is among the
valid transitions, the pending front is popped when it equals the target and
the state change is recorded. -/
theorem transitionSt_of_valid (enum : ClaimState → List ClaimState) (c : Claim)
    (target : ClaimState) (now : ℕ) (h : target ∈ get_valid_transitions enum c) :
    transitionSt enum c target now =
      (Except.ok (),
        record_state_change
          (if c.pending_states.head? = some target then
            { c with pending_states := c.pending_states.tail }
          else c)
          target now) := by
  have hcan : can_transition enum c target = true := by
    unfold can_transition
    exact decide_eq_true h
  unfold transitionSt
  rw [hcan]
  simp

/-- The composite fraud score computed by `evaluate_results` equals the
maximum of the specification-side per-producer contributions over the
producers that ran, and `0` when neither ran. -/
theorem evaluate_results_fraud_score (vo : Option VisionAnalysisResult)
    (tr : Option TextAnalysisResult) :
    (evaluate_results vo tr).fraud_score =
      (match vo, tr with
       | none, none => 0
       | some v, none => visionContributionSpec v
       | none, some t => textContributionSpec t
       | some v, some t =>
          max (visionContributionSpec v) (textContributionSpec t)) := by
  cases vo <;> cases tr <;>
    simp only [evaluate_results, visionContributionSpec, textContributionSpec,
      TEXT_INCONSISTENCY_THRESHOLD] <;>
    (try split_ifs) <;>
    simp [List.max?]

/-- Claim C1: the claim that `advance` from `UNDER_REVIEW` with empty
`pending_states` always reaches `ASSESSMENT` (so that `FRAUD_INVESTIGATION`
is never visited on the default flow) does not hold of the code:
`get_next_state` returns `valid_transitions[0]` where `valid_transitions`
is `list()` of an unordered Python set, and under the equally possible
iteration order `flippedOrder` the very same claim advances into
`FRAUD_INVESTIGATION` with no evaluator flag set. -/
theorem C1_next_state_depends_on_set_order :
    IsTransitionsOrder TRANSITIONS ∧ IsTransitionsOrder flippedOrder ∧
    get_next_state TRANSITIONS claimUnderReview = some ClaimState.ASSESSMENT ∧
    get_next_state flippedOrder claimUnderReview =
      some ClaimState.FRAUD_INVESTIGATION ∧
    advance flippedOrder claimUnderReview 1 =
      Except.ok
        { claimUnderReview with
          current_state := ClaimState.FRAUD_INVESTIGATION
          state_history := [ClaimState.SUBMITTED, ClaimState.UNDER_REVIEW]
          updated_at := some 1 } := by
  refine ⟨?_, ?_, ?_, ?_, ?_⟩
  · unfold IsTransitionsOrder
    decide
  · unfold IsTransitionsOrder
    decide
  · decide
  · decide
  · rfl

/-- Claim C2: with non-empty `pending_states`, the valid transitions are
exactly the singleton front of `pending_states`; with empty
`pending_states`, they are the static graph's outgoing set for
`current_state` (equality as sets, since the Python list is built from an
unordered set). -/
theorem C2_valid_transitions_shape (enum : ClaimState → List ClaimState)
    (henum : IsTransitionsOrder enum) (c : Claim) :
    (∀ p rest, c.pending_states = p :: rest →
      get_valid_transitions enum c = [p]) ∧
    (c.pending_states = [] →
      (get_valid_transitions enum c).toFinset =
        (TRANSITIONS c.current_state).toFinset) := by
  constructor
  · intro p rest hp
    unfold get_valid_transitions
    rw [hp]
  · intro hp
    unfold get_valid_transitions
    rw [hp]
    ext t
    simp only [List.mem_toFinset]
    exact (henum c.current_state).2 t

/-- Witness for C2 at concrete inputs: a pending `FRAUD_INVESTIGATION`
forces the singleton, and with no pending states the list equals the static
outgoing set of `UNDER_REVIEW`. -/
theorem C2_valid_transitions_shape_witness :
    get_valid_transitions TRANSITIONS
        { claimUnderReview with
          pending_states := [ClaimState.FRAUD_INVESTIGATION] } =
      [ClaimState.FRAUD_INVESTIGATION] ∧
    (get_valid_transitions TRANSITIONS claimUnderReview).toFinset =
      (TRANSITIONS ClaimState.UNDER_REVIEW).toFinset := by
  constructor
  · exact (C2_valid_transitions_shape TRANSITIONS
      (by unfold IsTransitionsOrder; decide) _).1
      ClaimState.FRAUD_INVESTIGATION [] rfl
  · exact (C2_valid_transitions_shape TRANSITIONS
      (by unfold IsTransitionsOrder; decide) claimUnderReview).2 rfl

/-- Counterexample to claim C3 as stated: for `claimRevisited`, the target
`UNDER_REVIEW` is a valid transition and the pre-transition `current_state`
(`SUBMITTED`) is not the last recorded history entry, yet `transition` does
not append it — the history is left unchanged, because the code skips the
push whenever the state occurs anywhere in `state_history`. -/
theorem C3_last_entry_counterexample :
    ClaimState.UNDER_REVIEW ∈ get_valid_transitions TRANSITIONS claimRevisited ∧
    claimRevisited.state_history.getLast? ≠ some claimRevisited.current_state ∧
    transition TRANSITIONS claimRevisited ClaimState.UNDER_REVIEW 1 =
      Except.ok
        { claimRevisited with
          current_state := ClaimState.UNDER_REVIEW
          updated_at := some 1 } ∧
    ({ claimRevisited with
        current_state := ClaimState.UNDER_REVIEW
        updated_at := some 1 } : Claim).state_history ≠
      claimRevisited.state_history ++ [claimRevisited.current_state] := by
  refine ⟨by decide, by decide, by rfl, by decide⟩

/-- Claim C3 (amended): for every target in `validTransitions(claim)`,
`transition` pops the pending front when it equals the target, appends the
pre-transition `current_state` to `state_history` when it is not already
present anywhere in `state_history`, sets `current_state` to the target and
updates the modification timestamp; the history is only ever appended to. -/
theorem C3_transition_effects (enum : ClaimState → List ClaimState) (c : Claim)
    (target : ClaimState) (now : ℕ)
    (h : target ∈ get_valid_transitions enum c) :
    ∃ c', transition enum c target now = Except.ok c' ∧
      c'.current_state = target ∧
      c'.updated_at = some now ∧
      c'.pending_states =
        (if c.pending_states.head? = some target then c.pending_states.tail
         else c.pending_states) ∧
      c'.state_history =
        (if c.current_state ∈ c.state_history then c.state_history
         else c.state_history ++ [c.current_state]) ∧
      ∃ appended, c'.state_history = c.state_history ++ appended := by
  unfold transition
  rw [transitionSt_of_valid enum c target now h]
  refine ⟨_, rfl, rfl, rfl, ?_, ?_, ?_⟩
  · by_cases hd : c.pending_states.head? = some target
    · rw [if_pos hd, if_pos hd]
      rfl
    · rw [if_neg hd, if_neg hd]
      rfl
  · unfold record_state_change
    by_cases hd : c.pending_states.head? = some target
    · rw [if_pos hd]
    · rw [if_neg hd]
  · by_cases hmem : c.current_state ∈ c.state_history
    · refine ⟨[], ?_⟩
      unfold record_state_change
      by_cases hd : c.pending_states.head? = some target
      · rw [if_pos hd]
        simp [hmem]
      · rw [if_neg hd]
        simp [hmem]
    · refine ⟨[c.current_state], ?_⟩
      unfold record_state_change
      by_cases hd : c.pending_states.head? = some target
      · rw [if_pos hd]
        simp [hmem]
      · rw [if_neg hd]
        simp [hmem]

/-- Witness for C3 (amended) at a concrete input: transitioning
`claimUnderReview` to `ASSESSMENT`. -/
theorem C3_transition_effects_witness :
    ∃ c', transition TRANSITIONS claimUnderReview ClaimState.ASSESSMENT 2 =
        Except.ok c' ∧
      c'.current_state = ClaimState.ASSESSMENT ∧
      c'.updated_at = some 2 ∧
      c'.pending_states =
        (if claimUnderReview.pending_states.head? = some ClaimState.ASSESSMENT
         then claimUnderReview.pending_states.tail
         else claimUnderReview.pending_states) ∧
      c'.state_history =
        (if claimUnderReview.current_state ∈ claimUnderReview.state_history
         then claimUnderReview.state_history
         else claimUnderReview.state_history ++ [claimUnderReview.current_state]) ∧
      ∃ appended, c'.state_history = claimUnderReview.state_history ++ appended :=
  C3_transition_effects TRANSITIONS claimUnderReview ClaimState.ASSESSMENT 2
    (by decide)

/-- Claim C10: `transition` is atomic on failure — when the target is not a
valid transition, the call raises the invalid-transition error and the
(mutable) claim object keeps every field unchanged: the `ValueError` is
raised before any mutation. -/
theorem C10_transition_atomic_on_failure (enum : ClaimState → List ClaimState)
    (c : Claim) (target : ClaimState) (now : ℕ)
    (h : target ∉ get_valid_transitions enum c) :
    transitionSt enum c target now =
      (Except.error MachineError.invalidTransition, c) ∧
    (transitionSt enum c target now).2.current_state = c.current_state ∧
    (transitionSt enum c target now).2.state_history = c.state_history ∧
    (transitionSt enum c target now).2.pending_states = c.pending_states ∧
    (transitionSt enum c target now).2.updated_at = c.updated_at ∧
    transition enum c target now =
      Except.error MachineError.invalidTransition := by
  have hcan : can_transition enum c target = false := by
    unfold can_transition
    exact decide_eq_false h
  have hst : transitionSt enum c target now =
      (Except.error MachineError.invalidTransition, c) := by
    unfold transitionSt
    rw [hcan]
    simp
  refine ⟨hst, ?_, ?_, ?_, ?_, ?_⟩
  · rw [hst]
  · rw [hst]
  · rw [hst]
  · rw [hst]
  · unfold transition
    rw [hst]

/-- Witness for C10 at a concrete input: `FINAL_DECISION` is not a valid
transition out of `UNDER_REVIEW`, and the failed call leaves the claim
unchanged. -/
theorem C10_transition_atomic_on_failure_witness :
    ClaimState.FINAL_DECISION ∉
      get_valid_transitions TRANSITIONS claimUnderReview ∧
    transitionSt TRANSITIONS claimUnderReview ClaimState.FINAL_DECISION 5 =
      (Except.error MachineError.invalidTransition, claimUnderReview) :=
  ⟨by decide,
    (C10_transition_atomic_on_failure TRANSITIONS claimUnderReview
      ClaimState.FINAL_DECISION 5 (by decide)).1⟩

/-- Claim C4: `insert_state` is idempotent — when the new state is already
anywhere in `pending_states` the call is a no-op, otherwise the new state is
prepended to the front; inserting twice leaves exactly one occurrence. -/
theorem C4_insert_state_idempotent (c : Claim) (s b : ClaimState)
    (hb : b ∈ TRANSITIONS s) :
    ∃ c', insert_state c s b = Except.ok c' ∧
      insert_state c' s b = Except.ok c' ∧
      (s ∈ c.pending_states → c' = c) ∧
      (s ∉ c.pending_states →
        c'.pending_states = s :: c.pending_states ∧
        c'.pending_states.count s = 1) := by
  have hkey : s ∈ TRANSITIONS_KEYS := mem_transitions_keys s
  by_cases hmem : s ∈ c.pending_states
  · refine ⟨c, ?_, ?_, fun _ => rfl, fun hn => absurd hmem hn⟩ <;>
      · unfold insert_state
        rw [if_neg (not_not_intro hkey), if_neg (not_not_intro hb),
          if_pos hmem]
  · refine ⟨{ c with pending_states := s :: c.pending_states }, ?_, ?_,
      fun hmem2 => absurd hmem2 hmem, fun _ => ⟨rfl, ?_⟩⟩
    · unfold insert_state
      rw [if_neg (not_not_intro hkey), if_neg (not_not_intro hb),
        if_neg hmem]
    · unfold insert_state
      rw [if_neg (not_not_intro hkey), if_neg (not_not_intro hb),
        if_pos (List.mem_cons_self s c.pending_states)]
    · simp [List.count_cons_self, List.count_eq_zero.mpr hmem]

/-- Witness for C4 at a concrete input: inserting `FRAUD_INVESTIGATION`
before `ASSESSMENT` into `claimUnderReview` twice. -/
theorem C4_insert_state_idempotent_witness :
    ∃ c', insert_state claimUnderReview ClaimState.FRAUD_INVESTIGATION
        ClaimState.ASSESSMENT = Except.ok c' ∧
      insert_state c' ClaimState.FRAUD_INVESTIGATION ClaimState.ASSESSMENT =
        Except.ok c' ∧
      (ClaimState.FRAUD_INVESTIGATION ∈ claimUnderReview.pending_states →
        c' = claimUnderReview) ∧
      (ClaimState.FRAUD_INVESTIGATION ∉ claimUnderReview.pending_states →
        c'.pending_states =
          ClaimState.FRAUD_INVESTIGATION :: claimUnderReview.pending_states ∧
        c'.pending_states.count ClaimState.FRAUD_INVESTIGATION = 1) :=
  C4_insert_state_idempotent claimUnderReview ClaimState.FRAUD_INVESTIGATION
    ClaimState.ASSESSMENT (by decide)

/-- Claim C5: `insert_state` fails with the unsupported-insertion error
exactly when `before_state` is not in the static graph's outgoing set of
`new_state`; in particular inserting `ASSESSMENT` before `SUBMITTED`
fails. -/
theorem C5_insert_state_unsupported_iff (c : Claim) (s b : ClaimState) :
    (insert_state c s b = Except.error MachineError.unsupportedInsertion ↔
      b ∉ TRANSITIONS s) ∧
    insert_state c ClaimState.ASSESSMENT ClaimState.SUBMITTED =
      Except.error MachineError.unsupportedInsertion := by
  constructor
  · constructor
    · intro h
      by_contra hb
      unfold insert_state at h
      rw [if_neg (not_not_intro (mem_transitions_keys s)),
        if_neg (not_not_intro hb)] at h
      by_cases hmem : s ∈ c.pending_states
      · rw [if_pos hmem] at h
        exact Except.noConfusion h
      · rw [if_neg hmem] at h
        exact Except.noConfusion h
    · intro hb
      unfold insert_state
      rw [if_neg (not_not_intro (mem_transitions_keys s)), if_pos hb]
  · unfold insert_state
    rw [if_neg (by decide), if_pos (by decide)]

/-- Claim C6: the aggregator's composite `fraud_score` is the maximum of the
per-producer contributions over the producers that ran (`0` when neither
ran): a flagged vision result contributes 0.8 when its confidence exceeds
0.7 and 0.5 otherwise, an unflagged one 0.1; a flagged text result (score at
least 5) contributes score/10, an unflagged one score/20.  On Scenario C's
inputs the score is max(0.8, 0.1) = 0.8 with investigation required. -/
theorem C6_fraud_score_is_max (vo : Option VisionAnalysisResult)
    (tr : Option TextAnalysisResult) :
    ((evaluate_results vo tr).fraud_score =
      (match vo, tr with
       | none, none => 0
       | some v, none => visionContributionSpec v
       | none, some t => textContributionSpec t
       | some v, some t =>
          max (visionContributionSpec v) (textContributionSpec t))) ∧
    (evaluate_results (some scenarioCVision) (some scenarioCText)).fraud_score
      = 8/10 ∧
    (evaluate_results (some scenarioCVision)
        (some scenarioCText)).requires_investigation = true := by
  refine ⟨evaluate_results_fraud_score vo tr, ?_, ?_⟩
  · rw [evaluate_results_fraud_score]
    norm_num [visionContributionSpec, textContributionSpec, scenarioCVision,
      scenarioCText]
  · rfl

/-- Claim C7: the fan-out's combined verdict is the logical OR of the two
evaluators' flags (hence independent of completion order), both results are
retained in argument order, and any claim with amount above 50000 is flagged
for investigation (Agent Alpha's amount rule). -/
theorem C7_fan_out_or (c : Claim) :
    (agent_evaluation c).1 =
      ((agent_alpha_evaluate c).requires_investigation ||
        (agent_beta_evaluate c).requires_investigation) ∧
    (agent_evaluation c).1 =
      ((agent_beta_evaluate c).requires_investigation ||
        (agent_alpha_evaluate c).requires_investigation) ∧
    (agent_evaluation c).2 = [agent_alpha_evaluate c, agent_beta_evaluate c] ∧
    (c.amount > 50000 → (agent_evaluation c).1 = true) := by
  refine ⟨?_, ?_, rfl, ?_⟩
  · simp [agent_evaluation]
  · simp [agent_evaluation, Bool.or_comm]
  · intro h
    simp [agent_evaluation, agent_alpha_evaluate, h]

/-- Witness for C7 at a concrete input: Scenario A's claim of amount
60000 is flagged. -/
theorem C7_fan_out_or_witness :
    scenarioAClaim.amount > 50000 ∧ (agent_evaluation scenarioAClaim).1 = true :=
  ⟨by norm_num [scenarioAClaim],
    (C7_fan_out_or scenarioAClaim).2.2.2 (by norm_num [scenarioAClaim])⟩

/-- Claim C8: applying an aggregated decision that requires investigation
sets the claim's flag and prepends `FRAUD_INVESTIGATION` unless already
pending, which is exactly the claim produced by the state machine's
`insert_state` on the flag-updated claim; a decision without investigation
leaves the claim unchanged. -/
theorem C8_update_claim_refines_insert (c : Claim) (r : OrchestratorResult) :
    (r.requires_investigation = true →
      (update_claim_for_investigation c r).requires_investigation = true ∧
      insert_state { c with requires_investigation := true }
          ClaimState.FRAUD_INVESTIGATION ClaimState.ASSESSMENT =
        Except.ok (update_claim_for_investigation c r)) ∧
    (r.requires_investigation = false →
      update_claim_for_investigation c r = c) := by
  constructor
  · intro h
    constructor
    · unfold update_claim_for_investigation
      rw [h]
      by_cases hmem :
          ClaimState.FRAUD_INVESTIGATION ∈ c.pending_states <;>
        simp [hmem]
    · unfold update_claim_for_investigation insert_state
      rw [h]
      by_cases hmem :
          ClaimState.FRAUD_INVESTIGATION ∈ c.pending_states <;>
        simp [hmem,
          (by decide : ClaimState.FRAUD_INVESTIGATION ∈ TRANSITIONS_KEYS),
          (by decide :
            ClaimState.ASSESSMENT ∈ TRANSITIONS ClaimState.FRAUD_INVESTIGATION)]
  · intro h
    unfold update_claim_for_investigation
    rw [h]
    simp

/-- Witness for C8 at a concrete input: a flagged aggregated decision on
Scenario A's claim. -/
theorem C8_update_claim_refines_insert_witness :
    (update_claim_for_investigation scenarioAClaim
        investigateResult).requires_investigation = true ∧
    insert_state { scenarioAClaim with requires_investigation := true }
        ClaimState.FRAUD_INVESTIGATION ClaimState.ASSESSMENT =
      Except.ok (update_claim_for_investigation scenarioAClaim investigateResult) :=
  (C8_update_claim_refines_insert scenarioAClaim investigateResult).1 rfl

/-- Claim C9: for any optional vision input (arbitrary confidence) and any
optional text input whose inconsistency score is an integer between 0 and
10, the aggregated `fraud_score` lies in the closed interval [0, 1]. -/
theorem C9_fraud_score_in_unit_interval (vo : Option VisionAnalysisResult)
    (tr : Option TextAnalysisResult)
    (ht : ∀ t, tr = some t →
      0 ≤ t.inconsistency_score ∧ t.inconsistency_score ≤ 10) :
    0 ≤ (evaluate_results vo tr).fraud_score ∧
      (evaluate_results vo tr).fraud_score ≤ 1 := by
  have hv : ∀ v : VisionAnalysisResult,
      0 ≤ visionContributionSpec v ∧ visionContributionSpec v ≤ 1 := by
    intro v
    unfold visionContributionSpec
    split_ifs <;> norm_num
  have htb : ∀ t : TextAnalysisResult, 0 ≤ t.inconsistency_score →
      t.inconsistency_score ≤ 10 →
      0 ≤ textContributionSpec t ∧ textContributionSpec t ≤ 1 := by
    intro t h0 h10
    have h0q : (0 : ℚ) ≤ (t.inconsistency_score : ℚ) := by exact_mod_cast h0
    have h10q : (t.inconsistency_score : ℚ) ≤ 10 := by exact_mod_cast h10
    unfold textContributionSpec
    split_ifs
    · constructor
      · exact div_nonneg h0q (by norm_num)
      · rw [div_le_one (by norm_num)]
        exact h10q
    · constructor
      · exact div_nonneg h0q (by norm_num)
      · rw [div_le_one (by norm_num)]
        linarith
  rw [evaluate_results_fraud_score]
  cases vo <;> cases tr
  · simp
  · rename_i t
    simpa using htb t (ht t rfl).1 (ht t rfl).2
  · rename_i v
    simpa using hv v
  · rename_i v t
    have h1 := hv v
    have h2 := htb t (ht t rfl).1 (ht t rfl).2
    exact ⟨le_trans h1.1 (le_max_left _ _), max_le h1.2 h2.2⟩

/-- Witness for C9 at a concrete input: Scenario C's vision and text
results. -/
theorem C9_fraud_score_in_unit_interval_witness :
    0 ≤ (evaluate_results (some scenarioCVision)
        (some scenarioCText)).fraud_score ∧
      (evaluate_results (some scenarioCVision)
        (some scenarioCText)).fraud_score ≤ 1 :=
  C9_fraud_score_in_unit_interval (some scenarioCVision) (some scenarioCText)
    (by
      intro t h
      cases h
      exact ⟨by decide, by decide⟩)

end ClaimSense
